import Mathlib

/-!
Verification development for the docker-compose-ports-dump extraction and
reconciliation pipeline. The Python source (dcpd_compose_parser.py,
dcpd_host_networking.py, dcpd_docker.py, dcpd_main.py) is shallowly embedded:
the SQLite tables become Lean lists of row structures, the Python dict with
insertion order becomes an ordered association list, and Python exceptions
become Option (none = the function raised). Functions keep their source
names where Lean allows it.
-/

/- ### Python string primitives, modelled on the character list of a String -/

/-- Python `s.split(sep)` for a single-character separator: splits on every
occurrence, keeping empty pieces, and always returns at least one piece. -/
def splitChar (sep : Char) : List Char → List (List Char)
  | [] => [[]]
  | c :: rest =>
    if c = sep then [] :: splitChar sep rest
    else
      match splitChar sep rest with
      | [] => [[c]]
      | p :: ps => (c :: p) :: ps

/-- Python `s.split(sep, 1)` for a single-character separator: the text before
the first occurrence, and, when the separator occurs, the untouched remainder. -/
def splitCharOnce (sep : Char) : List Char → List Char × Option (List Char)
  | [] => ([], none)
  | c :: rest =>
    if c = sep then ([], some rest)
    else
      let r := splitCharOnce sep rest
      (c :: r.1, r.2)

/-- Python `s.split(", ")`: split on the fixed two-character separator. -/
def splitCommaSpace : List Char → List (List Char)
  | [] => [[]]
  | ',' :: ' ' :: rest => [] :: splitCommaSpace rest
  | c :: rest =>
    match splitCommaSpace rest with
    | [] => [[c]]
    | p :: ps => (c :: p) :: ps

/-- Python `item.split("=", 1)`: a one-element list when no `=` occurs,
otherwise the part before the first `=` and the untouched remainder. -/
def pySplitEqOnce (s : String) : List String :=
  match splitCharOnce '=' s.data with
  | (before, none) => [String.mk before]
  | (before, some after) => [String.mk before, String.mk after]

/-- Python `s.split("=")` (no maxsplit), as used by the host-networking scanner. -/
def pySplitEq (s : String) : List String :=
  (splitChar '=' s.data).map String.mk

/-- Python `port.split(":")`. -/
def pySplitColon (s : String) : List String :=
  (splitChar ':' s.data).map String.mk

/-- Python `container_port.split("/")`. -/
def pySplitSlash (s : String) : List String :=
  (splitChar '/' s.data).map String.mk

/-- Python `mapping_values.split(", ")`. -/
def pySplitCommaSpace (s : String) : List String :=
  (splitCommaSpace s.data).map String.mk

/-- Python `s.startswith(pre)`. -/
def pyStartsWith (s pre : String) : Bool :=
  pre.data.isPrefixOf s.data

/-- Whitespace characters removed by Python `str.strip()`. -/
def isPySpace (c : Char) : Bool :=
  c = ' ' || c = '\t' || c = '\n' || c = '\r' || c = '\x0b' || c = '\x0c'

/-- Python `s.strip()`. -/
def pyStrip (s : String) : String :=
  String.mk (((s.data.dropWhile isPySpace).reverse.dropWhile isPySpace).reverse)

/-- Accumulating loop of `natOfDigits`. -/
def natOfDigitsGo : List Char → Nat → Option Nat
  | [], acc => some acc
  | c :: rest, acc =>
    if c.isDigit then natOfDigitsGo rest (acc * 10 + (c.toNat - 48)) else none

/-- Decimal digit run to a number; `none` when empty or a non-digit appears. -/
def natOfDigits : List Char → Option Nat
  | [] => none
  | l => natOfDigitsGo l 0

/-- Python `int(s.strip())` on an optionally-signed decimal literal; `none`
models the ValueError raised on anything else. -/
def pyInt (s : String) : Option Int :=
  match (pyStrip s).data with
  | '-' :: rest => (natOfDigits rest).map (fun n => -(n : Int))
  | l => (natOfDigits l).map (fun n => (n : Int))

/-- Python `", ".join(l)`. -/
def joinCommaSpace : List String → String
  | [] => ""
  | [x] => x
  | x :: rest => x ++ ", " ++ joinCommaSpace rest

/- ### Data model -/

/-- One service's configuration block as the parser consumes it:
`service_data.get("environment", [])`, the `"ports"` key (`none` when the key
is absent, `some` of the declared list when present), and
`service_config.get('network_mode')`. -/
structure ServiceData where
  environment : List String := []
  ports : Option (List String) := none
  network_mode : Option String := none
deriving Repr, DecidableEq

/-- The `services` mapping of a parsed compose document, in declaration
order (Python dicts preserve insertion order). -/
structure ComposeDoc where
  services : List (String × ServiceData)
deriving Repr, DecidableEq

/-- One row of the `port_mappings` table (id column omitted; rows are listed
in insertion order, which is the order SELECT * returns them). -/
structure PortMappingRow where
  external_port : Int
  mapping_values : String
deriving Repr, DecidableEq

/-- One row of the `service_info` table (id column omitted). The insert used
by the static extractor leaves `has_port_mapping` NULL (`none`); booleans are
stored as `some true` / `some false` once written. -/
structure ServiceInfoRow where
  service_name : String
  external_port : Option String
  internal_port : Option String
  has_port_mapping : Option Bool := none
  mapped_app : String
deriving Repr, DecidableEq

/-- One in-memory port-detail tuple produced by `extract_service_port_details`:
`(service_name, external_port, internal_port, mapping)` with Python `None`
as `none`. -/
structure PortDetail where
  service_name : String
  external_port : Option Int
  internal_port : Option Int
  mapping : String
deriving Repr, DecidableEq

/- ### Static Port Extractor: aggregation channel (extract_port_mappings) -/

/-- Python `port_mappings.setdefault(external_port, []).append(service_name)`
on an insertion-ordered dict, modelled as an ordered association list. -/
def setdefaultAppend (m : List (Int × List String)) (k : Int) (v : String) :
    List (Int × List String) :=
  if m.any (fun p => p.1 = k) then
    m.map (fun p => if p.1 = k then (p.1, p.2 ++ [v]) else p)
  else
    m ++ [(k, v :: [])]

/-- One environment item of `extract_port_mappings`: entries without `=` are
skipped by the `len(key_value_pair) == 2` check; on a `port.mapping*` key the
value goes through `int(value.strip())`, whose ValueError (`none`) aborts the
whole extraction. -/
def extractPortMappingsItem (service_name : String) (item : String)
    (m : List (Int × List String)) : Option (List (Int × List String)) :=
  match pySplitEqOnce item with
  | [key, value] =>
    if pyStartsWith key "port.mapping" then
      (pyInt value).map (fun p => setdefaultAppend m p service_name)
    else some m
  | _ => some m

/-- Embeds `extract_port_mappings(services)`: folds every service's
environment into the ordered external-port → service-names dict. -/
def extract_port_mappings (services : List (String × ServiceData)) :
    Option (List (Int × List String)) :=
  services.foldlM
    (fun m sv => sv.2.environment.foldlM (fun m item => extractPortMappingsItem sv.1 item m) m)
    []

/-- Embeds `update_database_mappings`: each dict entry becomes one
`port_mappings` row with the names comma-joined (the table has no uniqueness
constraint, so every insert succeeds). -/
def update_database_mappings (pm : List (Int × List String)) : List PortMappingRow :=
  pm.map (fun p => ⟨p.1, joinCommaSpace p.2⟩)

/- ### Static Port Extractor: per-service channel (extract_service_port_details) -/

/-- The comprehension `[item.split("=", 1)[1].strip() for item in environment
if item.startswith("port.mapping")]`; `none` models the IndexError raised when
a matching item has no `=` (so `split` yields a single piece and `[1]` is out
of range). -/
def portMappingsForService : List String → Option (List String)
  | [] => some []
  | item :: rest =>
    if pyStartsWith item "port.mapping" then
      match pySplitEqOnce item with
      | [_, v] => (portMappingsForService rest).map (fun l => pyStrip v :: l)
      | _ => none
    else portMappingsForService rest

/-- One entry of the `ports` list: `host_port, container_port = port.split(":")`
(ValueError unless exactly two pieces), `int(host_port)`, and
`int(container_port.split("/")[0])`. -/
def extractPortsEntry (service_name : String) (port : String) : Option PortDetail :=
  match pySplitColon port with
  | [host_port, container_port] =>
    (pyInt host_port).bind (fun external_port =>
      (pyInt ((pySplitSlash container_port).headD "")).map (fun internal_port =>
        ⟨service_name, some external_port, some internal_port, "N/A"⟩))
  | _ => none

/-- The `for port in service_data["ports"]` loop: each entry appends one
tuple; a ValueError (`none`) from any entry propagates. -/
def extractPortsList (service_name : String) : List String → Option (List PortDetail)
  | [] => some []
  | p :: rest =>
    (extractPortsEntry service_name p).bind (fun d =>
      (extractPortsList service_name rest).map (fun ds => d :: ds))

/-- Embeds `extract_service_port_details`: the convention-variable
comprehension is evaluated first (its IndexError propagates even when a
`ports` key exists); a present `ports` key wins over convention variables;
with neither, one placeholder tuple is produced. -/
def extract_service_port_details (service_name : String) (sd : ServiceData) :
    Option (List PortDetail) := do
  let pms ← portMappingsForService sd.environment
  match sd.ports with
  | some ports => extractPortsList service_name ports
  | none =>
    if pms.isEmpty then
      pure [⟨service_name, none, none, "N/A"⟩]
    else
      pure (pms.map (fun m => ⟨service_name, none, none, m⟩))

/-- Python `str(x) if x else None` applied to the port fields before the
`service_info` insert: `None` stays NULL and the falsy port `0` also becomes
NULL. -/
def pyOptStr (x : Option Int) : Option String :=
  match x with
  | some v => if v = 0 then none else some (toString v)
  | none => none

/-- The `service_info` row inserted for one port-detail tuple
(`has_port_mapping` is not in the INSERT column list, hence NULL). -/
def formatPortDetail (pd : PortDetail) : ServiceInfoRow :=
  ⟨pd.service_name, pyOptStr pd.external_port, pyOptStr pd.internal_port, none, pd.mapping⟩

/-- Embeds `update_database_with_port_details`: formats the tuples and bulk
inserts them (no uniqueness constraint, every insert succeeds). -/
def update_database_with_port_details (si : List ServiceInfoRow)
    (pds : List PortDetail) : List ServiceInfoRow :=
  si ++ pds.map formatPortDetail

/-- The port-detail tuples of every service of one document, in declaration
order. -/
def serviceRowsOfDoc (doc : ComposeDoc) : Option (List PortDetail) :=
  doc.services.foldlM
    (fun acc sv => (extract_service_port_details sv.1 sv.2).map (fun d => acc ++ d)) []

/-- Embeds the collection loop of `parse_docker_compose_and_get_service_ports`.
The source contains a shadowed nested loop: the outer `for file_path in
default_docker_compose_file` runs once per configured file, the inner loop
re-reads every file and leaves `services` bound to the LAST document's
services, and only then are that document's services extended onto the bulk
list — so the last document's rows are accumulated once per configured file
and the other documents contribute nothing. -/
def parse_docker_compose_and_get_service_ports (files : List ComposeDoc) :
    Option (List PortDetail) :=
  files.foldlM
    (fun bulk _ =>
      match files.getLast? with
      | none => some bulk
      | some last => (serviceRowsOfDoc last).map (fun d => bulk ++ d))
    []

/-- The `service_info` table as left by the static per-service pass starting
from an empty table. -/
def staticServiceInfo (files : List ComposeDoc) : Option (List ServiceInfoRow) :=
  (parse_docker_compose_and_get_service_ports files).map
    (update_database_with_port_details [])

/- ### Derived-Field Reconciler -/

/-- Embeds `update_has_port_mapping`: first `UPDATE service_info SET
has_port_mapping = 0`, then `UPDATE ... SET has_port_mapping = 1 WHERE
service_name IN (SELECT DISTINCT mapping_values FROM port_mappings)` — the
IN clause compares the service name against each WHOLE `mapping_values`
string, with no comma splitting. -/
def update_has_port_mapping (pm : List PortMappingRow) (si : List ServiceInfoRow) :
    List ServiceInfoRow :=
  ((si.map (fun r => { r with has_port_mapping := some false })).map
    (fun r =>
      if pm.any (fun m => m.mapping_values = r.service_name) then
        { r with has_port_mapping := some true }
      else r))

/-- Python `app_names[0] if app_names else "N/A"` on
`row["mapping_values"].split(", ")` (split never returns an empty list, so
the head is always taken). -/
def primaryAppName (mapping_values : String) : String :=
  match pySplitCommaSpace mapping_values with
  | [] => "N/A"
  | a :: _ => a

/-- One UPDATE of the `update_mapped_app_from_db` loop: `SET mapped_app = ?
WHERE service_name = ? AND external_port = ?` with the configured sidecar
name and `str(external_port)`. -/
def applyMappedAppUpdate (vpn : String) (si : List ServiceInfoRow)
    (m : PortMappingRow) : List ServiceInfoRow :=
  si.map (fun r =>
    if r.service_name = vpn ∧ r.external_port = some (toString m.external_port) then
      { r with mapped_app := primaryAppName m.mapping_values }
    else r)

/-- Embeds `update_mapped_app_from_db`: first `UPDATE service_info SET
mapped_app = 'N/A'` for EVERY row, then one UPDATE per `port_mappings` row in
table order. -/
def update_mapped_app_from_db (vpn : String) (pm : List PortMappingRow)
    (si : List ServiceInfoRow) : List ServiceInfoRow :=
  pm.foldl (applyMappedAppUpdate vpn) (si.map (fun r => { r with mapped_app := "N/A" }))

/-- The Derived-Field Reconciler pass as sequenced by dcpd_main:
`update_has_port_mapping` followed by `update_mapped_app_from_db`. -/
def derivedFieldPass (vpn : String) (pm : List PortMappingRow)
    (si : List ServiceInfoRow) : List ServiceInfoRow :=
  update_mapped_app_from_db vpn pm (update_has_port_mapping pm si)

/- ### Compose Document Loader failure model -/

/-- What loading one configured compose path can come to: the failure kinds,
or a parsed document. A malformed document is split by whether its YAMLError
carries the `problem_mark` attribute — ordinary syntax errors
(MarkedYAMLError subclasses such as ScannerError/ParserError) do, while
e.g. ReaderError does not — because `read_docker_compose_file` treats the two
differently. -/
inductive LoadOutcome where
  | notFound
  | permissionDenied
  | malformedMarked
  | malformedUnmarked
  | ok (doc : ComposeDoc)
deriving Repr, DecidableEq

/-- How a read helper hands its outcome back to the caller: a normal return
of a document, a `return None`, an uncaught exception, or `sys.exit(1)`. -/
inductive ReadResult where
  | gotDoc (doc : ComposeDoc)
  | gotNone
  | raised
  | exitedProcess
deriving Repr, DecidableEq

/-- Embeds `read_docker_compose_file`. On a YAMLError WITH `problem_mark`
(every ordinary syntax error) the handler's f-string evaluates
`stream.readlines()` on the stream the `with` block has already closed, so a
ValueError is raised before the `sys.exit(1)` line is reached — the function
raises. Only a YAMLError WITHOUT the attribute takes the else branch, logs,
and reaches `sys.exit(1)`. A PermissionError is logged and `None` is
returned; a FileNotFoundError has no handler and propagates. -/
def read_docker_compose_file : LoadOutcome → ReadResult
  | .malformedMarked => .raised
  | .malformedUnmarked => .exitedProcess
  | .permissionDenied => .gotNone
  | .notFound => .raised
  | .ok doc => .gotDoc doc

/-- Embeds `read_docker_compose_file2`: all three failure kinds
(FileNotFoundError, PermissionError, yaml.YAMLError of either shape) are
logged via `str(error)` and re-raised. -/
def read_docker_compose_file2 : LoadOutcome → ReadResult
  | .malformedMarked => .raised
  | .malformedUnmarked => .raised
  | .permissionDenied => .raised
  | .notFound => .raised
  | .ok doc => .gotDoc doc

/-- How the aggregation pass over the configured document list ends. -/
inductive PassResult where
  | completed (pm_rows : List PortMappingRow)
  | exitedProcess
  | raised
deriving Repr, DecidableEq

/-- Embeds the file loop of `parse_docker_compose_and_update_mappings`: each
configured path is read with `read_docker_compose_file`; a `None` result (and
likewise a falsy parsed document) is skipped with `continue`; otherwise the
document's port mappings are extracted (a ValueError from `int()` propagates)
and inserted. -/
def parse_docker_compose_and_update_mappings :
    List LoadOutcome → List PortMappingRow → PassResult
  | [], db => .completed db
  | f :: rest, db =>
    match read_docker_compose_file f with
    | .exitedProcess => .exitedProcess
    | .raised => .raised
    | .gotNone => parse_docker_compose_and_update_mappings rest db
    | .gotDoc doc =>
      match extract_port_mappings doc.services with
      | none => .raised
      | some pm =>
        parse_docker_compose_and_update_mappings rest (db ++ update_database_mappings pm)

/- ### Host-Networking Scanner -/

/-- The comprehension `[s.split('=')[1] for s in environment_data if
s.startswith("host.mapping")]` of `process_host_mappings`; the split uses no
maxsplit and `[1]` raises IndexError (`none`) when a matching entry has no
`=`. -/
def hostMappingsOfEnv : List String → Option (List String)
  | [] => some []
  | s :: rest =>
    if pyStartsWith s "host.mapping" then
      match pySplitEq s with
      | _ :: v :: _ => (hostMappingsOfEnv rest).map (fun l => v :: l)
      | _ => none
    else hostMappingsOfEnv rest

/-- Embeds `process_host_mappings`: every truthy (non-empty) `host.mapping`
value is inserted as a `service_info` row `("host", value, value, 1,
service_name)`. The `service_info` schema has no uniqueness constraint, so
the INSERT never raises IntegrityError and the duplicate-skip handler is
unreachable: every value, duplicate or not, appends its own row. -/
def process_host_mappings (si : List ServiceInfoRow) (service_name : String)
    (sd : ServiceData) : Option (List ServiceInfoRow) :=
  (hostMappingsOfEnv sd.environment).map (fun hms =>
    hms.foldl
      (fun acc port_value =>
        if port_value = "" then acc
        else acc ++ [⟨"host", some port_value, some port_value, some true, service_name⟩])
      si)

/- ### Runtime Reconciler (get_container_ports / insert_batch) -/

/-- One published-port binding object from the runtime inspector:
`value.get('HostIp')` and `value.get('HostPort', '')`. -/
structure PortBinding where
  hostIp : Option String
  hostPort : Option String
deriving Repr, DecidableEq

/-- One row inserted into `container_ports` by the bound-port channel. -/
structure ContainerPortRecord where
  container_name : String
  internal_port : String
  external_port : String
  protocol : String
deriving Repr, DecidableEq

/-- One entry of the container's `NetworkSettings.Ports` map, following
`get_container_ports`: `internal_port, protocol = key.split('/')` (ValueError
unless exactly two pieces), the protocol filter, the `values is None` skip,
and the wildcard host-address filter `value.get('HostIp') != '0.0.0.0'`. -/
def containerPortsOfEntry (container_name : String) (key : String)
    (values : Option (List PortBinding)) : Option (List ContainerPortRecord) :=
  match pySplitSlash key with
  | [internal_port, protocol] =>
    if protocol = "TCP" ∨ protocol = "UDP" ∨ protocol = "tcp" ∨ protocol = "udp" then
      match values with
      | none => some []
      | some vs =>
        some (vs.filterMap (fun v =>
          if v.hostIp = some "0.0.0.0" then
            some ⟨container_name, internal_port, v.hostPort.getD "", protocol⟩
          else none))
    else some []
  | _ => none

/-- All records one container contributes, over its ports map in order. -/
def get_container_ports (container_name : String)
    (port_data : List (String × Option (List PortBinding))) :
    Option (List ContainerPortRecord) :=
  port_data.foldlM
    (fun acc kv => (containerPortsOfEntry container_name kv.1 kv.2).map (fun l => acc ++ l))
    []

/-- Embeds the batching of `get_container_ports` around `insert_batch`: rows
accumulate in `batch_inserts`, a full batch of `BATCH_SIZE = 20` is flushed
into the table, and a final partial batch is flushed at the end. -/
def insertBatched (db batch : List ContainerPortRecord) :
    List ContainerPortRecord → List ContainerPortRecord
  | [] => db ++ batch
  | r :: rest =>
    let batch' := batch ++ [r]
    if 20 ≤ batch'.length then insertBatched (db ++ batch') [] rest
    else insertBatched db batch' rest

/-- The `container_ports` table contents one container leaves behind. -/
def containerPortsTable (container_name : String)
    (port_data : List (String × Option (List PortBinding))) :
    Option (List ContainerPortRecord) :=
  (get_container_ports container_name port_data).map (insertBatched [] [])

/- ### The full static pipeline of dcpd_main on successfully loaded documents -/

/-- The static pipeline in dcpd_main order — port-mapping aggregation,
per-service insertion, `update_has_port_mapping`, `update_mapped_app_from_db`
— on a configured list of successfully loaded documents, returning the final
`port_mappings` and `service_info` tables. -/
def staticPipeline (vpn : String) (files : List ComposeDoc) :
    Option (List PortMappingRow × List ServiceInfoRow) := do
  let pmRows ← files.foldlM
    (fun db doc => (extract_port_mappings doc.services).map
      (fun pm => db ++ update_database_mappings pm)) []
  let bulk ← parse_docker_compose_and_get_service_ports files
  let si := update_database_with_port_details [] bulk
  let si := update_has_port_mapping pmRows si
  let si := update_mapped_app_from_db vpn pmRows si
  pure (pmRows, si)

/- ### Spec-side definition for the has_port_mapping refinement claim -/

/-- Modelled from the spec's words (for comparison with
`update_has_port_mapping`): a service name "appears as one of the
comma-joined members of any mapping_values". -/
def specNameInMappingValues (pm : List PortMappingRow) (service_name : String) : Bool :=
  pm.any (fun m => (pySplitCommaSpace m.mapping_values).contains service_name)

/-- The boolean `update_has_port_mapping` actually stores for a row with the
given service name. -/
def hasFlagValue (pm : List PortMappingRow) (service_name : String) : Bool :=
  pm.any (fun m => m.mapping_values = service_name)

/-- The value the `mapped_app` loop of `update_mapped_app_from_db` leaves on a
row with the given name and external port. -/
def mappedAppValue (vpn : String) (pm : List PortMappingRow) (service_name : String)
    (external_port : Option String) : String :=
  pm.foldl
    (fun a m =>
      if service_name = vpn ∧ external_port = some (toString m.external_port) then
        primaryAppName m.mapping_values
      else a)
    "N/A"

/-- The row the whole Derived-Field Reconciler pass produces from one
`service_info` row: both derived fields are functions of the row's name and
external port and of the `port_mappings` table only. -/
def derivedRow (vpn : String) (pm : List PortMappingRow) (r : ServiceInfoRow) :
    ServiceInfoRow :=
  { r with
    has_port_mapping := some (hasFlagValue pm r.service_name),
    mapped_app := mappedAppValue vpn pm r.service_name r.external_port }

/-- The end-to-end scenario document: `service_a` with `ports: ["8080:80"]`,
`service_b` with `environment: ["port.mapping=51820"]`, `vpn` with an empty
environment. -/
def spec_c2_doc : ComposeDoc :=
  ⟨[("service_a", ⟨[], some ["8080:80"], none⟩),
    ("service_b", ⟨["port.mapping=51820"], none, none⟩),
    ("vpn", ⟨[], none, none⟩)]⟩

/-- Removes a service's `ports` key, leaving its environment untouched. -/
def stripPortsKey (sv : String × ServiceData) : String × ServiceData :=
  (sv.1, ⟨sv.2.environment, none, sv.2.network_mode⟩)

/- ### Helper lemmas on the Derived-Field Reconciler -/

/-- Running the two UPDATE statements of `update_has_port_mapping` equals one
pointwise rewrite of the flag. -/
theorem update_has_port_mapping_eq (pm : List PortMappingRow) (si : List ServiceInfoRow) :
    update_has_port_mapping pm si =
      si.map (fun r => { r with has_port_mapping := some (hasFlagValue pm r.service_name) }) := by
  unfold update_has_port_mapping
  rw [List.map_map]
  have h : ((fun r : ServiceInfoRow =>
        if pm.any (fun m => m.mapping_values = r.service_name) then
          { r with has_port_mapping := some true }
        else r) ∘
      (fun r : ServiceInfoRow => { r with has_port_mapping := some false })) =
      (fun r : ServiceInfoRow =>
        { r with has_port_mapping := some (hasFlagValue pm r.service_name) }) := by
    funext r
    by_cases hb : pm.any (fun m => m.mapping_values = r.service_name) = true
    · simp [Function.comp, hb, hasFlagValue]
    · simp [Function.comp, hb, hasFlagValue]
  rw [h]

/-- The UPDATE loop, folded over the mapping rows, acts on each `service_info`
row independently. -/
theorem foldl_applyMappedAppUpdate (vpn : String) :
    ∀ (pm : List PortMappingRow) (si : List ServiceInfoRow),
      pm.foldl (applyMappedAppUpdate vpn) si =
        si.map (fun r =>
          { r with mapped_app :=
              (pm.foldl
                (fun a m =>
                  if r.service_name = vpn ∧ r.external_port = some (toString m.external_port) then
                    primaryAppName m.mapping_values
                  else a)
                r.mapped_app) })
  | [], si => by
      simp only [List.foldl_nil]
      have h : (fun r : ServiceInfoRow => { r with mapped_app := r.mapped_app }) =
          @id ServiceInfoRow := rfl
      rw [h, List.map_id]
  | m :: pm, si => by
      rw [List.foldl_cons, foldl_applyMappedAppUpdate vpn pm (applyMappedAppUpdate vpn si m)]
      unfold applyMappedAppUpdate
      rw [List.map_map]
      simp only [List.foldl_cons]
      congr 1
      funext r
      by_cases hc : r.service_name = vpn ∧ r.external_port = some (toString m.external_port)
      · simp [Function.comp, hc]
      · simp [Function.comp, hc]

/-- Running `update_mapped_app_from_db` equals one pointwise rewrite of
`mapped_app`. -/
theorem update_mapped_app_from_db_eq (vpn : String) (pm : List PortMappingRow)
    (si : List ServiceInfoRow) :
    update_mapped_app_from_db vpn pm si =
      si.map (fun r =>
        { r with mapped_app := mappedAppValue vpn pm r.service_name r.external_port }) := by
  unfold update_mapped_app_from_db mappedAppValue
  rw [foldl_applyMappedAppUpdate, List.map_map]
  rfl

/-- The Derived-Field Reconciler is a pointwise map over `service_info`. -/
theorem derivedFieldPass_eq (vpn : String) (pm : List PortMappingRow)
    (si : List ServiceInfoRow) :
    derivedFieldPass vpn pm si = si.map (derivedRow vpn pm) := by
  unfold derivedFieldPass
  rw [update_has_port_mapping_eq, update_mapped_app_from_db_eq, List.map_map]
  rfl

/- ### Claim C8 -/

/-- C8: the Derived-Field Reconciler is idempotent — for every state of the
`service_info` and `port_mappings` tables and every configured sidecar name,
running `update_has_port_mapping` followed by `update_mapped_app_from_db`
twice leaves `service_info` identical to running the pair once (and the pair
never writes `port_mappings`, which stays unchanged by construction). -/
theorem spec_c8_reconciler_idempotent (vpn : String) (pm : List PortMappingRow)
    (si : List ServiceInfoRow) :
    derivedFieldPass vpn pm (derivedFieldPass vpn pm si) = derivedFieldPass vpn pm si := by
  simp only [derivedFieldPass_eq, List.map_map]
  rfl

/- ### Claim C1 -/

/-- C1 counterexample: with the shared mapping row `(9000, "A, B")` produced
by two services declaring the same port, service `A` appears as a comma-joined
member of `mapping_values` (the spec-side predicate holds), yet
`update_has_port_mapping` leaves `has_port_mapping = false` on A's row,
because the SQL IN clause compares the name against the whole string "A, B". -/
theorem spec_c1_counterexample :
    specNameInMappingValues [⟨9000, "A, B"⟩] "A" = true ∧
    update_has_port_mapping [⟨9000, "A, B"⟩]
        [⟨"A", none, none, none, "9000"⟩, ⟨"B", none, none, none, "9000"⟩] =
      [⟨"A", none, none, some false, "9000"⟩, ⟨"B", none, none, some false, "9000"⟩] := by
  decide

/-- C1 amended: after `update_has_port_mapping` runs, a row's
`has_port_mapping` is `true` if and only if its `service_name` equals the
ENTIRE `mapping_values` string of some `port_mappings` row (no comma
splitting), so a service listed together with another service in a shared
comma-joined entry is NOT flagged. -/
theorem spec_c1_amended (pm : List PortMappingRow) (si : List ServiceInfoRow)
    (r : ServiceInfoRow) (h : r ∈ update_has_port_mapping pm si) :
    r.has_port_mapping = some true ↔ ∃ m ∈ pm, m.mapping_values = r.service_name := by
  rw [update_has_port_mapping_eq] at h
  obtain ⟨r0, -, rfl⟩ := List.mem_map.mp h
  constructor
  · intro ht
    have hb : hasFlagValue pm r0.service_name = true := by
      have := Option.some.injEq (hasFlagValue pm r0.service_name) true ▸ ht
      simpa using ht
    obtain ⟨m, hm, he⟩ := List.any_eq_true.mp hb
    exact ⟨m, hm, by simpa using he⟩
  · intro ⟨m, hm, he⟩
    have hb : hasFlagValue pm r0.service_name = true :=
      List.any_eq_true.mpr ⟨m, hm, by simpa using he⟩
    simp [hb]

/-- C1 amended witness: with the single-member mapping row `(51820,
"service_b")`, the updated row for `service_b` is flagged, and the iff holds
at that concrete instance. -/
theorem spec_c1_amended_witness :
    (⟨"service_b", none, none, some true, "51820"⟩ : ServiceInfoRow).has_port_mapping =
        some true ↔
      ∃ m ∈ [(⟨51820, "service_b"⟩ : PortMappingRow)],
        m.mapping_values = (⟨"service_b", none, none, some true, "51820"⟩ :
          ServiceInfoRow).service_name :=
  spec_c1_amended [⟨51820, "service_b"⟩] [⟨"service_b", none, none, none, "51820"⟩]
    ⟨"service_b", none, none, some true, "51820"⟩ (by decide)

/- ### Claim C2 -/

/-- C2 counterexample: the full pipeline on the scenario document yields a
THREE-row `service_info` (vpn gets a placeholder row), and `service_b`'s
`mapped_app` ends as "N/A", not "51820" — `update_mapped_app_from_db` resets
every row's `mapped_app` to 'N/A' before the sidecar-targeted updates, and no
update targets `service_b`. The claimed row `(service_b, null, null, true,
"51820")` is not in the result. -/
theorem spec_c2_counterexample :
    staticPipeline "vpn" [spec_c2_doc] =
      some ([⟨51820, "service_b"⟩],
        [⟨"service_a", some "8080", some "80", some false, "N/A"⟩,
         ⟨"service_b", none, none, some true, "N/A"⟩,
         ⟨"vpn", none, none, some false, "N/A"⟩]) ∧
    (⟨"service_b", none, none, some true, "51820"⟩ : ServiceInfoRow) ∉
      [(⟨"service_a", some "8080", some "80", some false, "N/A"⟩ : ServiceInfoRow),
       ⟨"service_b", none, none, some true, "N/A"⟩,
       ⟨"vpn", none, none, some false, "N/A"⟩] := by
  decide

/-- C2 amended: the pipeline leaves `port_mappings` containing exactly
`(51820, "service_b")` and `service_info` containing exactly the rows
`(service_a, "8080", "80", false, "N/A")`, `(service_b, null, null, true,
"N/A")` and `(vpn, null, null, false, "N/A")`; in particular no `mapped_app`
update fires for any `vpn` row (its `mapped_app` stays at the reset value
"N/A", since the vpn row's `external_port` is null and never matches 51820). -/
theorem spec_c2_amended :
    staticPipeline "vpn" [spec_c2_doc] =
      some ([⟨51820, "service_b"⟩],
        [⟨"service_a", some "8080", some "80", some false, "N/A"⟩,
         ⟨"service_b", none, none, some true, "N/A"⟩,
         ⟨"vpn", none, none, some false, "N/A"⟩]) := by
  decide

/- ### Claim C10 -/

/-- C10: on a service whose environment holds an entry that starts with
"port.mapping" but has no "=", the per-service channel raises (the
comprehension indexes `[1]` into a one-piece split → IndexError, modelled as
`none`) while the aggregation channel silently skips the entry (its
`len == 2` guard) and returns an empty mapping dict — the two static
extraction channels disagree on this edge case. -/
theorem spec_c10_channels_disagree :
    extract_service_port_details "s" ⟨["port.mapping51820"], none, none⟩ = none ∧
    extract_port_mappings [("s", ⟨["port.mapping51820"], none, none⟩)] = some [] := by
  decide

/- ### Claim C4 -/

/-- C4 counterexample: with a failing first document and a healthy second
one, the second configured document is never processed — a marked malformed
document (every ordinary syntax error) raises a ValueError from
`stream.readlines()` on the closed stream, an unmarked YAMLError reaches
`sys.exit(1)`, and a missing document raises an uncaught FileNotFoundError —
contradicting "the run continues to the next configured document" for the
not-found and malformed kinds. -/
theorem spec_c4_counterexample :
    parse_docker_compose_and_update_mappings [.malformedMarked, .ok ⟨[]⟩] [] =
      .raised ∧
    parse_docker_compose_and_update_mappings [.malformedUnmarked, .ok ⟨[]⟩] [] =
      .exitedProcess ∧
    parse_docker_compose_and_update_mappings [.notFound, .ok ⟨[]⟩] [] = .raised := by
  decide

/-- C4 amended: in the aggregation pass only a permission-denied failure is
confined to its document (logged, `None` returned, loop continues of the
kinds the claim names); a malformed document terminates the pass — for a
YAMLError with `problem_mark` (the ordinary syntax errors) the handler itself
raises a ValueError by calling `stream.readlines()` on the already-closed
stream before reaching `sys.exit(1)`, and only an unmarked YAMLError actually
exits the process — and a missing document raises an uncaught
FileNotFoundError. In the per-service pass (`read_docker_compose_file2`) all
failure kinds re-raise. -/
theorem spec_c4_amended :
    (∀ (rest : List LoadOutcome) (db : List PortMappingRow),
      parse_docker_compose_and_update_mappings (.permissionDenied :: rest) db =
        parse_docker_compose_and_update_mappings rest db) ∧
    (∀ (rest : List LoadOutcome) (db : List PortMappingRow),
      parse_docker_compose_and_update_mappings (.malformedMarked :: rest) db =
        .raised) ∧
    (∀ (rest : List LoadOutcome) (db : List PortMappingRow),
      parse_docker_compose_and_update_mappings (.malformedUnmarked :: rest) db =
        .exitedProcess) ∧
    (∀ (rest : List LoadOutcome) (db : List PortMappingRow),
      parse_docker_compose_and_update_mappings (.notFound :: rest) db = .raised) ∧
    read_docker_compose_file2 .notFound = .raised ∧
    read_docker_compose_file2 .permissionDenied = .raised ∧
    read_docker_compose_file2 .malformedMarked = .raised ∧
    read_docker_compose_file2 .malformedUnmarked = .raised :=
  ⟨fun _ _ => rfl, fun _ _ => rfl, fun _ _ => rfl, fun _ _ => rfl, rfl, rfl, rfl, rfl⟩

/- ### Claim C3 -/

/-- The insert loop of `process_host_mappings` appends one row per truthy
value, in order. -/
theorem host_mappings_insert_foldl (service_name : String) :
    ∀ (hms : List String) (si : List ServiceInfoRow),
      hms.foldl
        (fun acc port_value =>
          if port_value = "" then acc
          else acc ++ [⟨"host", some port_value, some port_value, some true, service_name⟩])
        si =
      si ++ (hms.filter (fun v => v ≠ "")).map
        (fun v => ⟨"host", some v, some v, some true, service_name⟩)
  | [], si => by simp
  | v :: t, si => by
      rw [List.foldl_cons]
      by_cases hv : v = ""
      · simp [hv, host_mappings_insert_foldl service_name t]
      · simp [hv, host_mappings_insert_foldl service_name t, List.append_assoc]

/-- C3 counterexample: a service declaring the same `host.mapping` value
twice gets TWO `service_info` rows for that pair — `service_info` has no
uniqueness constraint, so the second INSERT succeeds rather than being caught
as a duplicate; the row count for the pair is 2, not 1. -/
theorem spec_c3_counterexample :
    process_host_mappings [] "svc" ⟨["host.mapping=80", "host.mapping=80"], none, none⟩ =
      some [⟨"host", some "80", some "80", some true, "svc"⟩,
        ⟨"host", some "80", some "80", some true, "svc"⟩] ∧
    ((process_host_mappings [] "svc"
        ⟨["host.mapping=80", "host.mapping=80"], none, none⟩).getD []).length ≠ 1 := by
  decide

/-- C3 amended: a duplicate `host.mapping` insert does not abort the run —
whenever the environment comprehension succeeds the function returns
normally — but nothing is skipped either: every truthy value, duplicate or
not, appends its own `service_info` row, so the same (service, value) pair
declared twice yields two rows. -/
theorem spec_c3_amended (si : List ServiceInfoRow) (service_name : String)
    (sd : ServiceData) :
    process_host_mappings si service_name sd =
      (hostMappingsOfEnv sd.environment).map (fun hms =>
        si ++ (hms.filter (fun v => v ≠ "")).map
          (fun v => ⟨"host", some v, some v, some true, service_name⟩)) := by
  unfold process_host_mappings
  cases h : hostMappingsOfEnv sd.environment with
  | none => rfl
  | some hms => simp [host_mappings_insert_foldl]

/- ### Claim C6 -/

/-- The aggregation fold of `extract_port_mappings` reads only each service's
name and environment, never the `ports` key. -/
theorem extract_port_mappings_env_only :
    ∀ (l : List (String × ServiceData)) (m : List (Int × List String)),
      (l.map stripPortsKey).foldlM
        (fun m sv =>
          sv.2.environment.foldlM (fun m item => extractPortMappingsItem sv.1 item m) m)
        m =
      l.foldlM
        (fun m sv =>
          sv.2.environment.foldlM (fun m item => extractPortMappingsItem sv.1 item m) m)
        m
  | [], _ => rfl
  | a :: t, m => by
      rw [List.map_cons, List.foldlM_cons, List.foldlM_cons]
      simp only [extract_port_mappings_env_only t]
      rfl

/-- C6 counterexample: a service declaring BOTH `ports: ["8080:80"]` and
`port.mapping=9000` still feeds the aggregation channel — `port_mappings`
gains the row `(9000, "s")` — even though its per-service rows come only from
the `ports` list; the convention variable does contribute to the extraction,
contradicting "contribute nothing". -/
theorem spec_c6_counterexample :
    extract_port_mappings [("s", ⟨["port.mapping=9000"], some ["8080:80"], none⟩)] =
      some [(9000, ["s"])] ∧
    update_database_mappings [(9000, ["s"])] = [⟨9000, "s"⟩] ∧
    extract_service_port_details "s" ⟨["port.mapping=9000"], some ["8080:80"], none⟩ =
      some [⟨"s", some 8080, some 80, "N/A"⟩] := by
  decide

/-- C6 amended: for a service with a direct `ports` declaration the
per-service rows are independent of which convention variables its
environment holds (whenever the comprehension over them succeeds), so the
`service_info` rows come solely from the `ports` list; the aggregation
channel, however, ignores the `ports` key entirely and still records the
service's convention variables in `port_mappings`. -/
theorem spec_c6_amended :
    (∀ (service_name : String) (env1 env2 : List String) (ps : List String)
        (nm1 nm2 : Option String),
      (portMappingsForService env1).isSome = true →
      (portMappingsForService env2).isSome = true →
      extract_service_port_details service_name ⟨env1, some ps, nm1⟩ =
        extract_service_port_details service_name ⟨env2, some ps, nm2⟩) ∧
    (∀ services : List (String × ServiceData),
      extract_port_mappings (services.map stripPortsKey) =
        extract_port_mappings services) := by
  constructor
  · intro service_name env1 env2 ps nm1 nm2 h1 h2
    obtain ⟨p1, hp1⟩ := Option.isSome_iff_exists.mp h1
    obtain ⟨p2, hp2⟩ := Option.isSome_iff_exists.mp h2
    unfold extract_service_port_details
    simp [hp1, hp2]
  · intro services
    unfold extract_port_mappings
    exact extract_port_mappings_env_only services []

/-- C6 amended witness: the both-channels service's per-service rows equal
those of the same service with an empty environment. -/
theorem spec_c6_amended_witness :
    extract_service_port_details "s" ⟨["port.mapping=9000"], some ["8080:80"], none⟩ =
      extract_service_port_details "s" ⟨[], some ["8080:80"], none⟩ :=
  spec_c6_amended.1 "s" ["port.mapping=9000"] [] ["8080:80"] none none
    (by decide) (by decide)

/- ### Claim C7 -/

/-- C7: when services A and B (A declared first) each declare
`port.mapping=9000`, the aggregation channel produces exactly one
`port_mappings` row, with `external_port = 9000` and `mapping_values` the
comma-join "A, B" in document order — for any service names and any `ports`
or `network_mode` of the two services. -/
theorem spec_c7_shared_port_merge (nameA nameB : String)
    (portsA portsB : Option (List String)) (nmA nmB : Option String) :
    (extract_port_mappings
        [(nameA, ⟨["port.mapping=9000"], portsA, nmA⟩),
         (nameB, ⟨["port.mapping=9000"], portsB, nmB⟩)]).map update_database_mappings =
      some [⟨9000, nameA ++ ", " ++ nameB⟩] :=
  rfl

/- ### Claim C9 -/

/-- C9: a published `80/tcp` binding whose host address is the wildcard
`0.0.0.0` yields exactly one `container_ports` record with protocol "tcp" and
internal port "80" (batched insertion preserving it), while the same binding
bound to any non-wildcard address yields no record. -/
theorem spec_c9_wildcard_binding (container_name host_port addr : String)
    (h : addr ≠ "0.0.0.0") :
    containerPortsTable container_name
        [("80/tcp", some [⟨some "0.0.0.0", some host_port⟩])] =
      some [⟨container_name, "80", host_port, "tcp"⟩] ∧
    containerPortsTable container_name
        [("80/tcp", some [⟨some addr, some host_port⟩])] =
      some [] := by
  constructor
  · rfl
  · have h80 : pySplitSlash "80/tcp" = ["80", "tcp"] := by decide
    simp [containerPortsTable, get_container_ports, containerPortsOfEntry, h80,
      insertBatched, h]

/-- C9 witness: the concrete container `c` publishing `80/tcp` at the
wildcard address with host port "8080", against the non-wildcard address
"127.0.0.1". -/
theorem spec_c9_wildcard_binding_witness :
    containerPortsTable "c" [("80/tcp", some [⟨some "0.0.0.0", some "8080"⟩])] =
      some [⟨"c", "80", "8080", "tcp"⟩] ∧
    containerPortsTable "c" [("80/tcp", some [⟨some "127.0.0.1", some "8080"⟩])] =
      some [] :=
  spec_c9_wildcard_binding "c" "8080" "127.0.0.1" (by decide)

/- ### Claim C5 -/

/-- Inverting the ports loop: a successful run produces exactly one tuple per
declared port, in order. -/
theorem extractPortsList_some (service_name : String) :
    ∀ (ps : List String) (pds : List PortDetail),
      extractPortsList service_name ps = some pds →
      pds.length = ps.length ∧
      ∀ i (h1 : i < ps.length) (h2 : i < pds.length),
        extractPortsEntry service_name (ps.get ⟨i, h1⟩) = some (pds.get ⟨i, h2⟩)
  | [], pds, h => by
      have h' : some ([] : List PortDetail) = some pds := h
      cases Option.some.inj h'
      exact ⟨rfl, fun i h1 _ => absurd h1 (Nat.not_lt_zero i)⟩
  | p :: t, pds, h => by
      unfold extractPortsList at h
      cases hf : extractPortsEntry service_name p with
      | none => rw [hf] at h; exact absurd h (by simp)
      | some d =>
        rw [hf] at h
        cases hr : extractPortsList service_name t with
        | none => rw [hr] at h; exact absurd h (by simp)
        | some ds =>
          rw [hr] at h
          have h' : some (d :: ds) = some pds := h
          cases Option.some.inj h'
          obtain ⟨hlen, hget⟩ := extractPortsList_some service_name t ds hr
          refine ⟨by simp [hlen], ?_⟩
          intro i h1 h2
          cases i with
          | zero => exact hf
          | succ n =>
            exact hget n (by simpa using h1) (by simpa using h2)

/-- C5 counterexample: with TWO configured documents — `a` declaring port
"1:2" in the first, `b` declaring "3:4" in the second — the per-service pass
inserts the LAST document's rows once per configured file: service `a`'s
declared port yields zero `service_info` rows and service `b`'s yields two,
contradicting "exactly one row per declared port" for every configured list. -/
theorem spec_c5_counterexample :
    staticServiceInfo
        [⟨[("a", ⟨[], some ["1:2"], none⟩)]⟩, ⟨[("b", ⟨[], some ["3:4"], none⟩)]⟩] =
      some [⟨"b", some "3", some "4", none, "N/A"⟩,
        ⟨"b", some "3", some "4", none, "N/A"⟩] ∧
    (([⟨"b", some "3", some "4", none, "N/A"⟩,
        ⟨"b", some "3", some "4", none, "N/A"⟩] : List ServiceInfoRow).filter
      (fun r => r.service_name = "a")).length = 0 ∧
    (([⟨"b", some "3", some "4", none, "N/A"⟩,
        ⟨"b", some "3", some "4", none, "N/A"⟩] : List ServiceInfoRow).filter
      (fun r => r.service_name = "b")).length = 2 := by
  decide

/-- C5 amended: for a configured list of exactly ONE compose document the
collection pass runs once, and then every service with a direct `ports`
declaration contributes exactly one tuple per declared port, positionally
matching the declaration; each successful tuple carries the parsed HOST and
CONTAINER values (protocol suffix stripped) and mapping "N/A"; and the
inserted `service_info` row keeps the decimal strings whenever both declared
values are nonzero (the falsy port 0 would be stored as NULL). -/
theorem spec_c5_amended :
    (∀ doc : ComposeDoc,
      parse_docker_compose_and_get_service_ports [doc] = serviceRowsOfDoc doc) ∧
    (∀ (service_name : String) (env ps : List String) (nm : Option String)
        (pds : List PortDetail),
      extract_service_port_details service_name ⟨env, some ps, nm⟩ = some pds →
      pds.length = ps.length ∧
      ∀ i (h1 : i < ps.length) (h2 : i < pds.length),
        extractPortsEntry service_name (ps.get ⟨i, h1⟩) = some (pds.get ⟨i, h2⟩)) ∧
    (∀ (service_name port : String) (pd : PortDetail),
      extractPortsEntry service_name port = some pd →
      ∃ host_port container_port e c,
        pySplitColon port = [host_port, container_port] ∧
        pyInt host_port = some e ∧
        pyInt ((pySplitSlash container_port).headD "") = some c ∧
        pd = ⟨service_name, some e, some c, "N/A"⟩) ∧
    (∀ (service_name : String) (e c : Int), e ≠ 0 → c ≠ 0 →
      formatPortDetail ⟨service_name, some e, some c, "N/A"⟩ =
        ⟨service_name, some (toString e), some (toString c), none, "N/A"⟩) := by
  refine ⟨?_, ?_, ?_, ?_⟩
  · intro doc
    unfold parse_docker_compose_and_get_service_ports
    simp only [List.foldlM_cons, List.foldlM_nil]
    cases h : serviceRowsOfDoc doc with
    | none => simp [h]
    | some l => simp [h]
  · intro service_name env ps nm pds h
    unfold extract_service_port_details at h
    cases hp : portMappingsForService env with
    | none => rw [hp] at h; exact absurd h (by simp)
    | some l =>
      rw [hp] at h
      exact extractPortsList_some service_name ps pds h
  · intro service_name port pd h
    unfold extractPortsEntry at h
    split at h
    next host_port container_port hsp =>
      cases he : pyInt host_port with
      | none => rw [he] at h; exact absurd h (by simp)
      | some e =>
        rw [he] at h
        cases hc : pyInt ((pySplitSlash container_port).headD "") with
        | none => rw [hc] at h; exact absurd h (by simp)
        | some c =>
          rw [hc] at h
          have h' : some (⟨service_name, some e, some c, "N/A"⟩ : PortDetail) = some pd := h
          exact ⟨host_port, container_port, e, c, hsp, he, hc, (Option.some.inj h').symm⟩
    next => exact absurd h (by simp)
  · intro service_name e c he hc
    unfold formatPortDetail pyOptStr
    simp [he, hc]

/-- C5 amended witness: the single service `a` declaring "8080:80" yields one
tuple, and its formatted `service_info` row keeps the decimal strings. -/
theorem spec_c5_amended_witness :
    (([⟨"a", some 8080, some 80, "N/A"⟩] : List PortDetail).length =
      (["8080:80"] : List String).length) ∧
    formatPortDetail ⟨"a", some 8080, some 80, "N/A"⟩ =
      ⟨"a", some "8080", some "80", none, "N/A"⟩ :=
  ⟨(spec_c5_amended.2.1 "a" [] ["8080:80"] none
      [⟨"a", some 8080, some 80, "N/A"⟩] (by decide)).1,
   spec_c5_amended.2.2.2 "a" 8080 80 (by decide) (by decide)⟩
